import Mathlib

/-!
Shallow embedding of the backend process in src/main.go: the request
handlers and routing built by createHttpHandler, the database handle
produced by openDb, and the start / wait / shutdown lifecycle of main.
Components of the repository that are referenced by src/main.go but whose
source is not under src/ (PgVersionRepo, VersionController,
notFoundHandler, requestLog) are modelled from the spec, as marked on each
definition.
-/

namespace Backend

/-- HTTP methods as dispatched by the router. -/
inductive Method
  | GET
  | POST
  | PUT
  | DELETE
  | PATCH
deriving DecidableEq, Repr

/-- A request context: method and path, one per inbound HTTP call. -/
structure Request where
  method : Method
  path : String
deriving DecidableEq, Repr

/-- An HTTP response: status code and body. -/
structure Response where
  status : Nat
  body : String
deriving DecidableEq, Repr

/-- Log levels used by the program (logrus). -/
inductive LogLevel
  | Info
  | Warning
  | Error
deriving DecidableEq, Repr

/-- One structured log line in the log sink. A `request` entry carries the
request fields that `requestLog` attaches; a `plain` entry is an ordinary
level-and-message line. -/
inductive LogEntry
  | request (method : Method) (path : String) (message : String)
  | plain (level : LogLevel) (message : String)
deriving DecidableEq, Repr

/-- Whether a log entry is the per-request middleware entry. -/
def LogEntry.isRequestEntry : LogEntry → Bool
  | .request _ _ _ => true
  | .plain _ _ => false

/-- The handle returned by `sql.Open`: the DSN it was opened with, and
whether `Close` has been called on it. -/
structure SqlDB where
  dsn : String
  closed : Bool
deriving DecidableEq, Repr

/-- Embeds `sql.Open("pg", pgDsn)` (src/main.go:54). The pgdriver is
registered by the blank import and `sql.Open` validates the DSN lazily, so
the call yields a fresh, not-yet-closed handle and a nil error (the error
branch on line 55-57 is dead). -/
def sqlOpen (pgDsn : String) : SqlDB := SqlDB.mk pgDsn false

/-- Embeds `(*sql.DB).Close`: marks the handle closed. -/
def SqlDB.close (db : SqlDB) : SqlDB := SqlDB.mk db.dsn true

/-- The `bun.DB` wrapper: `bun.NewDB` wraps the `*sql.DB` handle and shares
it, so closing the handle is visible through the wrapper. -/
structure BunDB where
  sqldb : SqlDB
deriving DecidableEq, Repr

/-- Embeds `openDb` (src/main.go:53-60): open the sql handle, wrap it in a
`bun.DB`, and run the statement `defer sqldb.Close()` from line 58 when the
function returns, before the caller sees the result. The returned value
therefore wraps the closed handle. -/
def openDb (pgDsn : String) : BunDB :=
  let sqldb := sqlOpen pgDsn
  let result := BunDB.mk sqldb
  BunDB.mk result.sqldb.close

/-- A persisted version record: identifier plus a recency key, larger
meaning newer. -/
structure VersionRecord where
  identifier : String
  recency : Nat
deriving DecidableEq, Repr

/-- External state of the persistent store: reachable and holding some
records, or disconnected. -/
inductive StoreState
  | ok (records : List VersionRecord)
  | disconnected
deriving DecidableEq, Repr

/-- Failures surfaced by the repository as a StorageError. -/
inductive StorageError
  | handleClosed
  | disconnected
deriving DecidableEq, Repr

/-- Newest-first comparison on version records. -/
def newerEq (a b : VersionRecord) : Prop := b.recency ≤ a.recency

instance : DecidableRel newerEq := fun a b => Nat.decLe b.recency a.recency

instance : IsTotal VersionRecord newerEq :=
  ⟨fun a b => Or.symm (Nat.le_total a.recency b.recency)⟩

instance : IsTrans VersionRecord newerEq :=
  ⟨fun _ _ _ hab hbc => Nat.le_trans hbc hab⟩

/-- Modelled from the spec: the ordering the repository query applies.
Section 4.1 requires the version records ordered by recency, newest first;
the query itself lives in `PgVersionRepo`, which is not under src/. -/
def sortNewestFirst (records : List VersionRecord) : List VersionRecord :=
  List.insertionSort newerEq records

/-- Modelled from the spec: `PgVersionRepo` and its fetch operation are not
under src/. Per section 4.1 the operation returns the ordered sequence of
version records, newest first, and fails with a `StorageError` carrying the
cause on query failure; a query through a closed sql handle always fails
(Go reports `sql: database is closed`). -/
def fetchLatestVersions (db : BunDB) (store : StoreState) :
    Except StorageError (List VersionRecord) :=
  if db.sqldb.closed then Except.error StorageError.handleClosed
  else
    match store with
    | StoreState.disconnected => Except.error StorageError.disconnected
    | StoreState.ok records => Except.ok (sortNewestFirst records)

/-- Modelled from the spec: serialization of the ordered sequence of version
records into the response body (section 4.2). -/
def serializeVersions (records : List VersionRecord) : String :=
  "[" ++ String.intercalate "," (records.map VersionRecord.identifier) ++ "]"

/-- The log entry the controller writes on a storage failure. -/
def storageFailureEntry : LogEntry :=
  LogEntry.plain LogLevel.Error "Fetching latest versions failed."

/-- The log entry the controller writes on a successful outcome. -/
def servedVersionsEntry : LogEntry :=
  LogEntry.plain LogLevel.Info "Serving latest versions."

/-- The 500-equivalent response with a generic diagnostic body. -/
def storageErrorResponse : Response := Response.mk 500 "internal server error"

/-- Modelled from the spec: `VersionController.ServeLatestVersions` is not
under src/. Per section 4.2 it calls the repository; on success it
serializes the resulting sequence with a success status, on `StorageError`
it writes a server-error status and a diagnostic body; it logs one entry
per request outcome. -/
def serveLatestVersions (db : BunDB) (store : StoreState) (log : List LogEntry) :
    Response × List LogEntry :=
  match fetchLatestVersions db store with
  | Except.ok records =>
      (Response.mk 200 (serializeVersions records), log ++ [servedVersionsEntry])
  | Except.error _ => (storageErrorResponse, log ++ [storageFailureEntry])

/-- Modelled from the spec: `notFoundHandler` is not under src/; section 4.3
fixes it as a fixed not-found response with a 404-equivalent status. -/
def notFoundResponse : Response := Response.mk 404 "not found"

/-- The fixed liveness response written by the handler for `/`
(src/main.go:65-67): `fmt.Fprintf(w, "dzialam")` with the implicit 200. -/
def livenessResponse : Response := Response.mk 200 "dzialam"

/-- The response gorilla/mux writes when a registered path matches but the
method does not (its method-not-allowed handler): status 405, empty body. -/
def methodNotAllowedResponse : Response := Response.mk 405 ""

/-- Embeds the dispatch of the router built in `createHttpHandler`
(src/main.go:62-74): the route for `/` is registered for every method; the
`/version` subrouter routes `GET /version/latest` to the controller, and a
method mismatch on that path surfaces as the mux 405; every other path
falls to the NotFoundHandler installed on line 64. -/
def routerDispatch (db : BunDB) (req : Request) (store : StoreState)
    (log : List LogEntry) : Response × List LogEntry :=
  if req.path = "/" then (livenessResponse, log)
  else if req.path = "/version/latest" then
    if req.method = Method.GET then serveLatestVersions db store log
    else (methodNotAllowedResponse, log)
  else (notFoundResponse, log)

/-- The middleware entry written by `requestLog(r).Infoln("Handling
request.")` (src/main.go:48); `requestLog` is not under src/ and is
modelled from the spec, which has it record the request method and path
(section 4.3). -/
def requestLogEntry (req : Request) : LogEntry :=
  LogEntry.request req.method req.path "Handling request."

/-- A request handler: request and store state to a response, threading the
log sink. -/
def Handler : Type :=
  Request → StoreState → List LogEntry → Response × List LogEntry

/-- Embeds `logHandler` (src/main.go:46-51): write the request entry, then
delegate to the wrapped handler untouched. -/
def logHandler (next : Handler) : Handler :=
  fun req store log => next req store (log ++ [requestLogEntry req])

/-- Embeds `createHttpHandler` (src/main.go:62-74): the router dispatch
wrapped in the logging middleware. -/
def createHttpHandler (db : BunDB) : Handler :=
  logHandler (fun req store log => routerDispatch db req store log)

/-- Operating-system signals as delivered to the process. -/
inductive Sig
  | interrupt
  | other
deriving DecidableEq, Repr

/-- Embeds `awaitInterruption` (src/main.go:76-80) over the stream of
signals delivered to the process: `signal.Notify(c, os.Interrupt)` forwards
only interrupt signals to the channel, and the receive blocks until one
arrives. `none` models blocking forever because no interrupt is ever
delivered; `some rest` models returning after consuming the first
interrupt, with `rest` the signals not yet consumed. -/
def awaitInterruption : List Sig → Option (List Sig)
  | [] => none
  | Sig.interrupt :: rest => some rest
  | Sig.other :: rest => awaitInterruption rest

/-- Observable process-level events, in order of occurrence. -/
inductive Ev
  | enteredWait
  | enteredShutdown
  | logFileClosed
  | exited (code : Nat)
deriving DecidableEq, Repr

/-- Process state: the log sink contents, whether the log file is open, and
the trace of process-level events. -/
structure ProcState where
  log : List LogEntry
  logFileOpen : Bool
  events : List Ev
deriving DecidableEq, Repr

/-- Append one entry to the log sink. -/
def addLog (st : ProcState) (e : LogEntry) : ProcState :=
  ProcState.mk (st.log ++ [e]) st.logFileOpen st.events

/-- Record one process-level event. -/
def addEv (st : ProcState) (e : Ev) : ProcState :=
  ProcState.mk st.log st.logFileOpen (st.events ++ [e])

/-- Embeds the exit handler registered in `setupLogger` (src/main.go:38-43):
once `setupLogger` has succeeded `logFile` is non-nil, so the handler
closes the log file. -/
def runExitHandler (st : ProcState) : ProcState :=
  ProcState.mk st.log false (st.events ++ [Ev.logFileClosed])

/-- Embeds `logrus.Exit(code)`: run the registered exit handlers, then
terminate the process with `code`. -/
def logrusExit (code : Nat) (st : ProcState) : ProcState :=
  let st1 := runExitHandler st
  ProcState.mk st1.log st1.logFileOpen (st1.events ++ [Ev.exited code])

/-- The warning logged when the http server shutdown fails
(src/main.go:85). -/
def shutdownWarnEntry : LogEntry :=
  LogEntry.plain LogLevel.Warning "Http server shutdown failed."

/-- Embeds `shutdown` (src/main.go:82-88): `server.Shutdown(ctx)` may
return an error, which is logged as a warning; then `logrus.Exit(0)` runs
unconditionally. -/
def shutdown (serverErr : Option String) (st : ProcState) : ProcState :=
  let st1 :=
    match serverErr with
    | some _ => addLog st shutdownWarnEntry
    | none => st
  logrusExit 0 st1

/-- Embeds the Go constant `time.Second`, in nanoseconds. -/
def timeSecond : Nat := 1000000000

/-- The shutdown deadline `main` passes to `context.WithTimeout`
(src/main.go:112): `10*time.Second` from shutdown start. -/
def mainShutdownTimeout : Nat := 10 * timeSecond

/-- Outcome of the `server.ListenAndServe()` call: either the listening
address was bound, or the bind failed. -/
inductive BindOutcome
  | bound
  | bindFailed
deriving DecidableEq, Repr

/-- Embeds `main` (src/main.go:90-115) as a function of its environment:
the DSN, the outcome of the bind, the stream of delivered signals, and the
result of the server shutdown. The statement `go server.ListenAndServe()`
on line 106 runs the serve loop on its own goroutine and discards its
return value, including any bind error, so `bind` is never consulted on
the main control path. -/
def mainRun (dsn : String) (bind : BindOutcome) (sigs : List Sig)
    (serverErr : Option String) : ProcState :=
  let st0 : ProcState := ProcState.mk [] true []
  let st1 := addLog st0 (LogEntry.plain LogLevel.Info "Starting backend.")
  let st2 :=
    if dsn = "" then
      addLog st1
        (LogEntry.plain LogLevel.Error "Environment variable POSTGRES_DSN is not set!")
    else st1
  let st3 := addLog st2 (LogEntry.plain LogLevel.Info "Opening database.")
  let db := openDb dsn
  let st4 := addLog st3 (LogEntry.plain LogLevel.Info "Creating http handler.")
  let _handler := createHttpHandler db
  let _discardedBind := bind
  let st5 := addLog st4
    (LogEntry.plain LogLevel.Info "Starting listening... To shut down use ^C")
  let st6 := addEv st5 Ev.enteredWait
  match awaitInterruption sigs with
  | none => st6
  | some _ =>
      let st7 := addLog st6 (LogEntry.plain LogLevel.Info "Shutting down...")
      let st8 := addEv st7 Ev.enteredShutdown
      shutdown serverErr st8

/-- A concrete open database handle, as the repository would need one. -/
def exampleOpenDb : BunDB := BunDB.mk (SqlDB.mk "postgres://db" false)

/-- A concrete store: versions created in the order 1.0.0, 1.1.0, 1.2.0,
with recency keys recording that chronology. -/
def exampleStore : List VersionRecord :=
  [VersionRecord.mk "1.0.0" 0, VersionRecord.mk "1.1.0" 1, VersionRecord.mk "1.2.0" 2]

/-- The controller threads the log sink: its response ignores the incoming
log, and it only appends its outcome entry. -/
theorem serveLatestVersions_log (db : BunDB) (store : StoreState) (log : List LogEntry) :
    serveLatestVersions db store log =
      ((serveLatestVersions db store []).1, log ++ (serveLatestVersions db store []).2) := by
  unfold serveLatestVersions
  cases fetchLatestVersions db store <;> simp

/-- The router dispatch threads the log sink: its response ignores the
incoming log, and it only appends entries. -/
theorem routerDispatch_log (db : BunDB) (req : Request) (store : StoreState)
    (log : List LogEntry) :
    routerDispatch db req store log =
      ((routerDispatch db req store []).1, log ++ (routerDispatch db req store []).2) := by
  unfold routerDispatch
  by_cases h1 : req.path = "/"
  · simp [h1]
  · by_cases h2 : req.path = "/version/latest"
    · by_cases h3 : req.method = Method.GET
      · simp [h1, h2, h3, serveLatestVersions_log db store log]
      · simp [h1, h2, h3]
    · simp [h1, h2]

/-- The response of the router dispatch does not depend on the incoming
log sink contents. -/
theorem routerDispatch_resp (db : BunDB) (req : Request) (store : StoreState)
    (log : List LogEntry) :
    (routerDispatch db req store log).1 = (routerDispatch db req store []).1 := by
  rw [routerDispatch_log db req store log]

/-- Every entry the router dispatch itself appends is a plain entry, never
a middleware request entry. -/
theorem routerDispatch_no_request_entries (db : BunDB) (req : Request) (store : StoreState) :
    ∀ e ∈ (routerDispatch db req store []).2, e.isRequestEntry = false := by
  unfold routerDispatch serveLatestVersions
  by_cases h1 : req.path = "/"
  · simp [h1]
  · by_cases h2 : req.path = "/version/latest"
    · by_cases h3 : req.method = Method.GET
      · cases fetchLatestVersions db store <;>
          simp [h1, h2, h3, servedVersionsEntry, storageFailureEntry, LogEntry.isRequestEntry]
      · simp [h1, h2, h3]
    · simp [h1, h2]

/-- C2: for every DSN, `openDb` hands out a `bun.DB` whose underlying sql
handle — freshly opened, hence initially not closed — has been closed by
the deferred `Close` before the function returns, so every subsequent
query through the returned value fails. -/
theorem openDb_returns_closed_handle (pgDsn : String) :
    (sqlOpen pgDsn).closed = false ∧
    (openDb pgDsn).sqldb.closed = true ∧
    (openDb pgDsn).sqldb.dsn = pgDsn ∧
    ∀ store : StoreState,
      fetchLatestVersions (openDb pgDsn) store = Except.error StorageError.handleClosed := by
  refine ⟨rfl, rfl, rfl, fun store => ?_⟩
  simp [fetchLatestVersions, openDb, sqlOpen, SqlDB.close]

/-- C3: the Shutdown phase runs against the fixed 10-second deadline set in
`main`; a server shutdown error adds exactly one warning entry to the log
and is non-fatal; the exit handler closes the log file and the process then
terminates with exit code 0. -/
theorem shutdown_deadline_warning_and_exit (st : ProcState) (serverErr : Option String) :
    mainShutdownTimeout = 10 * timeSecond ∧
    (shutdown serverErr st).log =
      st.log ++ (match serverErr with | some _ => [shutdownWarnEntry] | none => []) ∧
    (shutdown serverErr st).events = st.events ++ [Ev.logFileClosed, Ev.exited 0] ∧
    (shutdown serverErr st).logFileOpen = false := by
  cases serverErr <;>
    simp [shutdown, logrusExit, runExitHandler, addLog, mainShutdownTimeout]

/-- C8: every request whose path is neither the liveness route nor the
latest-versions route receives the fixed not-found response, whatever the
method, and that response carries the 404 status. -/
theorem unmatched_path_not_found (db : BunDB) (req : Request) (store : StoreState)
    (log : List LogEntry) (h1 : req.path ≠ "/") (h2 : req.path ≠ "/version/latest") :
    (createHttpHandler db req store log).1 = notFoundResponse ∧
    notFoundResponse.status = 404 := by
  constructor
  · simp [createHttpHandler, logHandler, routerDispatch, h1, h2]
  · rfl

/-- Witness for C8 at the concrete request `POST /admin`. -/
theorem unmatched_path_not_found_witness :
    (Request.mk Method.POST "/admin").path ≠ "/" ∧
    (createHttpHandler exampleOpenDb (Request.mk Method.POST "/admin")
        (StoreState.ok exampleStore) []).1 = notFoundResponse :=
  ⟨by decide,
    (unmatched_path_not_found exampleOpenDb (Request.mk Method.POST "/admin")
      (StoreState.ok exampleStore) [] (by decide) (by decide)).1⟩

/-- C9: a GET on the liveness route always yields the fixed 200 response
with body dzialam, for every database handle state and store state. -/
theorem liveness_independent_of_db (db : BunDB) (store : StoreState) (log : List LogEntry) :
    (createHttpHandler db (Request.mk Method.GET "/") store log).1 = livenessResponse ∧
    livenessResponse = Response.mk 200 "dzialam" := by
  constructor
  · simp [createHttpHandler, logHandler, routerDispatch]
  · rfl

/-- C10: `shutdown` always terminates the process with exit code 0,
whether or not the server shutdown returned an error. -/
theorem shutdown_always_exits_zero (serverErr : Option String) (st : ProcState) :
    (shutdown serverErr st).events.getLast? = some (Ev.exited 0) := by
  cases serverErr <;>
    simp [shutdown, logrusExit, runExitHandler, addLog]

/-- C4: when the repository call fails with a StorageError, a GET on the
latest-versions route returns the 500 response with the diagnostic body,
the failure entry is recorded exactly once in the log sink, and the error
stays inside that request cycle: the response to any request does not
depend on the failing request having been handled. -/
theorem storage_error_contained (db : BunDB) (store : StoreState) (log : List LogEntry)
    (e : StorageError) (h : fetchLatestVersions db store = Except.error e) :
    (createHttpHandler db (Request.mk Method.GET "/version/latest") store log).1 =
      storageErrorResponse ∧
    (createHttpHandler db (Request.mk Method.GET "/version/latest") store log).2.count
        storageFailureEntry = log.count storageFailureEntry + 1 ∧
    ∀ req2 : Request,
      (createHttpHandler db req2 store
          (createHttpHandler db (Request.mk Method.GET "/version/latest") store log).2).1 =
        (createHttpHandler db req2 store log).1 := by
  refine ⟨?_, ?_, ?_⟩
  · simp [createHttpHandler, logHandler, routerDispatch, serveLatestVersions, h]
  · simp [createHttpHandler, logHandler, routerDispatch, serveLatestVersions, h,
      List.count_append, requestLogEntry]
    decide
  · intro req2
    simp only [createHttpHandler, logHandler]
    rw [routerDispatch_resp,
      routerDispatch_resp db req2 store (log ++ [requestLogEntry req2])]

/-- Witness for C4 at a disconnected store and an open handle. -/
theorem storage_error_contained_witness :
    fetchLatestVersions exampleOpenDb StoreState.disconnected =
      Except.error StorageError.disconnected ∧
    (createHttpHandler exampleOpenDb (Request.mk Method.GET "/version/latest")
        StoreState.disconnected []).1 = storageErrorResponse :=
  ⟨rfl,
    (storage_error_contained exampleOpenDb StoreState.disconnected []
      StorageError.disconnected rfl).1⟩

/-- C5: against a reachable store and an open handle, a GET on the
latest-versions route returns status 200 with the records serialized
newest-first: the served sequence is sorted by the newest-first order and
is a permutation of the store contents, and the empty store yields the
empty sequence with status 200. -/
theorem serve_latest_newest_first (db : BunDB) (recs : List VersionRecord)
    (log : List LogEntry) (h : db.sqldb.closed = false) :
    (createHttpHandler db (Request.mk Method.GET "/version/latest")
        (StoreState.ok recs) log).1 =
      Response.mk 200 (serializeVersions (sortNewestFirst recs)) ∧
    List.Sorted newerEq (sortNewestFirst recs) ∧
    List.Perm (sortNewestFirst recs) recs ∧
    (createHttpHandler db (Request.mk Method.GET "/version/latest")
        (StoreState.ok []) log).1 = Response.mk 200 "[]" := by
  refine ⟨?_, List.sorted_insertionSort newerEq recs,
    List.perm_insertionSort newerEq recs, ?_⟩
  · simp [createHttpHandler, logHandler, routerDispatch, serveLatestVersions,
      fetchLatestVersions, h]
  · simp [createHttpHandler, logHandler, routerDispatch, serveLatestVersions,
      fetchLatestVersions, h, sortNewestFirst, serializeVersions]
    rfl

/-- Witness for C5: the store holding 1.0.0, 1.1.0, 1.2.0 in that
chronological order is served newest-first as 1.2.0, 1.1.0, 1.0.0. -/
theorem serve_latest_newest_first_witness :
    exampleOpenDb.sqldb.closed = false ∧
    (createHttpHandler exampleOpenDb (Request.mk Method.GET "/version/latest")
        (StoreState.ok exampleStore) []).1 =
      Response.mk 200 (serializeVersions (sortNewestFirst exampleStore)) ∧
    sortNewestFirst exampleStore =
      [VersionRecord.mk "1.2.0" 2, VersionRecord.mk "1.1.0" 1, VersionRecord.mk "1.0.0" 0] ∧
    serializeVersions (sortNewestFirst exampleStore) = "[1.2.0,1.1.0,1.0.0]" :=
  ⟨rfl, (serve_latest_newest_first exampleOpenDb exampleStore [] rfl).1,
    by decide, by decide⟩

/-- C7: for every request — matched or not — the middleware appends exactly
one request entry, carrying the request method and path, before the
dispatch runs; everything the dispatch appends after it is a plain entry;
and the response is exactly the one the dispatch alone would produce. -/
theorem middleware_pure_observer (db : BunDB) (req : Request) (store : StoreState)
    (log : List LogEntry) :
    (createHttpHandler db req store log).1 = (routerDispatch db req store log).1 ∧
    (createHttpHandler db req store log).2 =
      log ++ requestLogEntry req :: (routerDispatch db req store []).2 ∧
    requestLogEntry req = LogEntry.request req.method req.path "Handling request." ∧
    (∀ e ∈ (routerDispatch db req store []).2, e.isRequestEntry = false) ∧
    (createHttpHandler db req store log).2.countP LogEntry.isRequestEntry =
      log.countP LogEntry.isRequestEntry + 1 := by
  have hlog := routerDispatch_log db req store (log ++ [requestLogEntry req])
  have hlog0 := routerDispatch_log db req store log
  have hplain := routerDispatch_no_request_entries db req store
  refine ⟨?_, ?_, rfl, hplain, ?_⟩
  · simp only [createHttpHandler, logHandler, hlog, hlog0]
  · simp only [createHttpHandler, logHandler, hlog]
    simp
  · simp only [createHttpHandler, logHandler, hlog, List.countP_append]
    have hzero : (routerDispatch db req store []).2.countP LogEntry.isRequestEntry = 0 :=
      List.countP_eq_zero.mpr (by
        intro e he
        simp [hplain e he])
    simp [hzero, requestLogEntry, LogEntry.isRequestEntry]

/-- C6: the signal wait returns exactly at the first interrupt, consuming
it; it blocks forever precisely when no interrupt is ever delivered, and no
other signal unblocks it; and the main flow enters the Shutdown phase only
after the Wait phase has been unblocked. -/
theorem wait_blocks_until_interrupt (sigs rest : List Sig) (dsn : String)
    (bind : BindOutcome) (serverErr : Option String) :
    awaitInterruption ([] : List Sig) = none ∧
    awaitInterruption (Sig.other :: sigs) = awaitInterruption sigs ∧
    awaitInterruption (Sig.interrupt :: rest) = some rest ∧
    ((awaitInterruption sigs = none) ↔ Sig.interrupt ∉ sigs) ∧
    (mainRun dsn bind sigs serverErr).events =
      [Ev.enteredWait] ++
        (match awaitInterruption sigs with
         | none => []
         | some _ => [Ev.enteredShutdown, Ev.logFileClosed, Ev.exited 0]) := by
  refine ⟨rfl, rfl, rfl, ?_, ?_⟩
  · induction sigs with
    | nil => simp [awaitInterruption]
    | cons s tl ih =>
      cases s
      · simp [awaitInterruption]
      · simp [awaitInterruption, ih]
  · cases hsig : awaitInterruption sigs <;>
      cases serverErr <;>
        by_cases hdsn : dsn = "" <;>
          simp [mainRun, hsig, hdsn, shutdown, logrusExit, runExitHandler, addLog, addEv]

/-- C1: evaluation of `main` at a failed bind. Because the result of
`server.ListenAndServe()` is discarded by the goroutine launch, the process
still enters the Wait phase and, once interrupted, exits with code 0: the
run is identical to a run whose bind succeeded, contrary to terminating
with a non-zero status before the Wait phase. -/
theorem main_reaches_wait_despite_bind_failure :
    Ev.enteredWait ∈
      (mainRun "postgres://db" BindOutcome.bindFailed [Sig.interrupt] none).events ∧
    (mainRun "postgres://db" BindOutcome.bindFailed [Sig.interrupt] none).events.getLast? =
      some (Ev.exited 0) ∧
    mainRun "postgres://db" BindOutcome.bindFailed [Sig.interrupt] none =
      mainRun "postgres://db" BindOutcome.bound [Sig.interrupt] none := by
  decide

end Backend
